import Mathlib

/-!
Verification development for the actiserve federation relay.

The Rust sources are embedded shallowly: strings are lists of characters,
the HTTP header map and the two shared maps (inbox registry, dedup cache)
are association lists with last-binding-wins lookup (matching the
observable behaviour of a HashMap built by successive inserts), and the
external collaborators (URI parsing from the http crate, RSA/base64/sha
from the rsa, base64 and sha2 crates, the reqwest network client, clock
and uuid generation) are fields of an explicit environment record, since
their code is not part of this repository.  Rust Result values are the
Res type; code that can additionally abort the task through an unwrap or
an explicit abort is modelled with the Outcome type, whose third
constructor records the abort message.
-/

namespace Actiserve

/-- Characters of a Rust String / str value. -/
abbrev Str := List Char

/-- The error enum of src/error.rs, restricted to the payloads the embedded
functions construct.  Status codes are bare naturals. -/
inductive Err where
  | FailedRequest (method : Str) (status : Nat) (error : Str) (uri : Str)
  | InvalidJson (uri : Str) (raw : Str)
  | InvalidPublicKey (error : Str)
  | InvalidUri (uri : Str)
  | MissingSignature
  | StatusAndMessage (status : Nat) (message : Str)
deriving DecidableEq

/-- Rust Result with the error enum of src/error.rs. -/
inductive Res (α : Type) where
  | ok (a : α)
  | error (e : Err)
deriving DecidableEq

/-- Result of running code that may also abort the whole task (a Rust
unwrap/expect failure or an explicit abort); the third constructor carries
the abort message. -/
inductive Outcome (α : Type) where
  | ok (a : α)
  | err (e : Err)
  | panicked (msg : Str)
deriving DecidableEq

/-- The generic signature-rejection error INVALID_SIG of src/signature.rs:
status 401 with the fixed message. -/
def INVALID_SIG : Err := Err.StatusAndMessage 401 (("invalid HTTP signature").data)

/-- Lookup in an association list built by successive inserts: the binding
added last wins, matching a Rust HashMap populated by insert in order. -/
def mapGet : List (Str × Str) → Str → Option Str
  | [], _ => none
  | (k1, v1) :: rest, k =>
    match mapGet rest k with
    | some v => some v
    | none => if k1 = k then some v1 else none

/-- HashMap::insert: append the binding; mapGet prefers the later one. -/
def mapInsert (m : List (Str × Str)) (k v : Str) : List (Str × Str) :=
  m ++ [(k, v)]

/-- HashMap::remove of every binding for the key. -/
def mapRemove : List (Str × Str) → Str → List (Str × Str)
  | [], _ => []
  | (k1, v1) :: rest, k =>
    if k1 = k then mapRemove rest k else (k1, v1) :: mapRemove rest k

/-- Rust str::split on a single character: the list of segments between
occurrences; always nonempty. -/
def splitChar (c : Char) : Str → List Str
  | [] => [[]]
  | x :: xs =>
    match splitChar c xs with
    | [] => [[]]
    | y :: ys => if x = c then [] :: y :: ys else (x :: y) :: ys

/-- Rust str::split_once: split at the first occurrence of the character. -/
def splitOnce (c : Char) : Str → Option (Str × Str)
  | [] => none
  | x :: xs =>
    if x = c then some ([], xs)
    else (splitOnce c xs).map (fun p => (x :: p.1, p.2))

/-- Rust [sep].join / itertools join: interleave the separator. -/
def joinSep (sep : Str) : List Str → Str
  | [] => []
  | [x] => x
  | x :: xs => x ++ sep ++ joinSep sep xs

/-- str::strip_prefix of a double-quote character. -/
def stripLeadQ : Str → Option Str
  | x :: xs => if x = '"' then some xs else none
  | [] => none

/-- str::strip_suffix of a double-quote character. -/
def stripTrailQ (s : Str) : Option Str :=
  match s.reverse with
  | x :: xs => if x = '"' then some xs.reverse else none
  | [] => none

/-- The actor document as used by the inbox route handlers: an optional id,
an optional inbox URL, and the verification key material that actor.key
exposes (PEM decoding of the remote key is external library code and is
modelled as already done). -/
structure RActor where
  id : Option Str
  inbox : Option Str
  pubKey : Str
deriving DecidableEq

/-- Environment of external collaborators: URI parsing (http crate),
clock, uuid source, crypto primitives (rsa, base64, sha2 crates) and the
outbound network client (reqwest).  Each relay function takes it
explicitly; theorems hypothesise exactly the properties of these
collaborators they need. -/
structure Env where
  uriParses : Str → Bool
  uriHost : Str → Option Str
  uriPath : Str → Str
  date : Str
  uuid : Str
  baseUrl : Str
  sha256 : Str → Str
  b64encode : Str → Str
  b64decode : Str → Option Str
  sign : Str → Str
  verify256 : Str → Str → Str → Bool
  verify512 : Str → Str → Str → Bool
  getActor : Str → Res RActor
  followActor : Str → Res Unit
  unfollowActor : Str → Res Unit
  postResult : Str → Option Err

/-- build_signing_string of src/signature.rs: each pair rendered as
name, colon, space, then the value in double quotes; lines joined by a
newline. -/
def build_signing_string (pairs : List (Str × Str)) : Str :=
  joinSep (['\n']) (pairs.map (fun p => p.1 ++ (": \"").data ++ p.2 ++ ("\"").data))

/-- build_sig_header of src/signature.rs: the outgoing Signature header
value with keyId, algorithm, headers and signature fields joined by
commas. -/
def build_sig_header (env : Env) (signature : Str) (headerNames : List Str) : Str :=
  joinSep ([',']) [
    ("keyId=\"https://").data ++ env.baseUrl ++ ("/actor#main-key\"").data,
    ("algorithm=\"rsa-sha256\"").data,
    ("headers=\"").data ++ joinSep ([' ']) headerNames ++ ("\"").data,
    ("signature=\"").data ++ signature ++ ("\"").data]

/-- create_signature of src/signature.rs: sign the signing string with the
relay key (PKCS#1 v1.5 over SHA-256, deterministic for a fixed key),
base64-encode the signature bytes, and build the Signature header naming
the signed pairs. -/
def create_signature (env : Env) (pairs : List (Str × Str)) : Str :=
  build_sig_header env (env.b64encode (env.sign (build_signing_string pairs))) (pairs.map Prod.fst)

/-- The ordered header pairs signed by sign_request_headers: the
request-target pseudo header, date and host, and, when a body is present,
content-length and digest (SHA-256= followed by the base64 body hash). -/
def signedPairs (env : Env) (target host : Str) (data : Option Str) : List (Str × Str) :=
  [(("(request-target)").data, target),
   (("date").data, env.date),
   (("host").data, host)] ++
  (match data with
   | none => []
   | some s =>
     [(("content-length").data, (toString s.length).data),
      (("digest").data, ("SHA-256=").data ++ env.b64encode (env.sha256 s))])

/-- sign_request_headers of src/signature.rs: parse the target URI, build
the signed pairs (method is post when a body is present, else get), create
the Signature header, and return the headers minus the request-target
pseudo header. -/
def sign_request_headers (env : Env) (uri : Str) (data : Option Str) :
    Res (List (Str × Str)) :=
  if env.uriParses uri then
    match env.uriHost uri with
    | none => Res.error (Err.InvalidUri uri)
    | some host =>
      let method := if data.isSome then ("post").data else ("get").data
      let path := env.uriPath uri
      let target := method ++ (" ").data ++ path
      let pairs := signedPairs env target host data
      let signature := create_signature env pairs
      Res.ok (mapRemove (mapInsert pairs (("signature").data) signature) (("(request-target)").data))
  else Res.error (Err.InvalidUri uri)

/-- One key=value pair of a Signature header: split at the first equals
sign, then strip the surrounding double quotes; any malformation yields
the generic invalid-signature error. -/
def parsePair (pair : Str) : Res (Str × Str) :=
  match splitOnce '=' pair with
  | none => Res.error INVALID_SIG
  | some kv =>
    match (stripLeadQ kv.2).bind stripTrailQ with
    | none => Res.error INVALID_SIG
    | some v => Res.ok (kv.1, v)

/-- Collect the parsed pairs left to right, failing on the first bad one
(collect of an iterator of Results into a HashMap). -/
def collectPairs : List Str → Res (List (Str × Str))
  | [] => Res.ok []
  | p :: ps =>
    match parsePair p with
    | Res.error e => Res.error e
    | Res.ok kv =>
      match collectPairs ps with
      | Res.error e => Res.error e
      | Res.ok rest => Res.ok (kv :: rest)

/-- split_signature of src/signature.rs: split the header on commas and
parse every key=quoted-value pair. -/
def split_signature (s : Str) : Res (List (Str × Str)) :=
  collectPairs (splitChar ',' s)

/-- The per-name lookup performed while assembling ordered_headers: a name
listed in the signature but absent from the request headers runs the
ok_or_else closure of src/signature.rs line 108, which aborts the task
with the missing-key message instead of producing an error value. -/
def orderedLookup (m : List (Str × Str)) : List Str → Outcome (List (Str × Str))
  | [] => Outcome.ok []
  | k :: ks =>
    match mapGet m k with
    | none => Outcome.panicked (("missing key: ").data ++ k)
    | some v =>
      match orderedLookup m ks with
      | Outcome.ok rest => Outcome.ok ((k, v) :: rest)
      | Outcome.err e => Outcome.err e
      | Outcome.panicked msg => Outcome.panicked msg

/-- Tail of validate_signature after the base64 decode of the signature
value: assemble the ordered signed headers (aborting on a missing one),
rebuild the signing string, select the hash algorithm from the suffix of
the algorithm field, and verify. -/
def validate_stage3 (env : Env) (pubKey : Str) (headersMap : List (Str × Str))
    (sig : List (Str × Str)) (decoded : Option Str) : Outcome Unit :=
  match decoded with
  | none => Outcome.err INVALID_SIG
  | some sigData =>
    match mapGet sig (("headers").data) with
    | none => Outcome.err INVALID_SIG
    | some headerNames =>
      match orderedLookup headersMap (splitChar ' ' headerNames) with
      | Outcome.err e => Outcome.err e
      | Outcome.panicked msg => Outcome.panicked msg
      | Outcome.ok ordered =>
        let signingString := build_signing_string ordered
        match mapGet sig (("algorithm").data) with
        | none => Outcome.err INVALID_SIG
        | some alg =>
          match splitOnce '-' alg with
          | none => Outcome.err INVALID_SIG
          | some kv =>
            if kv.2 = ("sha256").data then
              (if env.verify256 pubKey signingString sigData then Outcome.ok ()
               else Outcome.err INVALID_SIG)
            else if kv.2 = ("sha512").data then
              (if env.verify512 pubKey signingString sigData then Outcome.ok ()
               else Outcome.err INVALID_SIG)
            else Outcome.err INVALID_SIG

/-- Middle of validate_signature: given the parsed Signature header,
insert the recomputed request target into it, extract the signature field
and base64-decode it. -/
def validate_stage2 (env : Env) (pubKey : Str) (target : Str)
    (headersMap : List (Str × Str)) (sigRes : Res (List (Str × Str))) : Outcome Unit :=
  match sigRes with
  | Res.error e => Outcome.err e
  | Res.ok sig0 =>
    let sig := mapInsert sig0 (("(request-target)").data) target
    match mapGet sig (("signature").data) with
    | none => Outcome.err INVALID_SIG
    | some stringSig => validate_stage3 env pubKey headersMap sig (env.b64decode stringSig)

/-- validate_signature of src/signature.rs: absence of the signature
header is MissingSignature; otherwise parse the header, recompute the
request target from the real method and path, and check the signature
over the canonical string of the listed headers against the actor key. -/
def validate_signature (env : Env) (actor : RActor) (method path : Str)
    (headers : List (Str × Str)) : Outcome Unit :=
  match mapGet headers (("signature").data) with
  | none => Outcome.err Err.MissingSignature
  | some s =>
    let target := method ++ (" ").data ++ path
    validate_stage2 env actor.pubKey target
      (mapInsert headers (("(request-target)").data) target) (split_signature s)

/-- A serde_json Value, restricted to what the handlers inspect. -/
inductive Json where
  | null
  | jstr (s : Str)
  | jnum (n : Int)
  | jbool (b : Bool)
  | jarr (xs : List Json)
  | jobj (fields : List (Str × Json))

/-- Value::get of an object key: some field value when the receiver is an
object containing the key, none otherwise. -/
def jGet (v : Json) (k : Str) : Option Json :=
  match v with
  | Json.jobj fields =>
    match fields.find? (fun f => f.1 = k) with
    | some f => some f.2
    | none => none
  | _ => none

/-- Value indexing v[k]: like jGet but yielding Null when absent. -/
def jIndex (v : Json) (k : Str) : Json :=
  match jGet v k with
  | some w => w
  | none => Json.null

/-- Value::as_str. -/
def jAsStr : Json → Option Str
  | Json.jstr s => some s
  | _ => none

/-- id_from_json of src/util.rs: take the object field of the value; use
its id field when one exists, else the object itself; expect a string.
The source unwraps the Option, so a none here is an unwrap abort of the
handling task, which callers surface as a panicked Outcome. -/
def id_from_json (val : Json) : Option Str :=
  let obj := jIndex val (("object").data)
  match jGet obj (("id").data) with
  | some id => jAsStr id
  | none => jAsStr obj

/-- host_from_uri of src/util.rs: parse the URI (http crate) and extract
its host, InvalidUri on either failure. -/
def host_from_uri (env : Env) (uri : Str) : Res Str :=
  if env.uriParses uri then
    match env.uriHost uri with
    | none => Res.error (Err.InvalidUri uri)
    | some host => Res.ok host
  else Res.error (Err.InvalidUri uri)

/-- The persisted inbox registry of src/state.rs: a map of host to inbox
URL (the on-disk snapshot handling is external storage code). -/
structure Db where
  inboxes : List (Str × Str)
deriving DecidableEq

/-- The shared server state: the registry plus the in-memory dedup cache
mapping object id to relayed activity id. -/
structure RelayState where
  db : Db
  objectCache : List (Str × Str)
deriving DecidableEq

/-- Db::add_inbox_if_unknown of src/state.rs, verbatim: derive the host of
the inbox URL, test contains_key with the full inbox URL, and on a miss
insert the binding host to inbox and return true. -/
def add_inbox_if_unknown (env : Env) (db : Db) (inbox : Str) : Res (Bool × Db) :=
  match host_from_uri env inbox with
  | Res.error e => Res.error e
  | Res.ok host =>
    if (mapGet db.inboxes inbox).isSome then Res.ok (false, db)
    else Res.ok (true, { inboxes := mapInsert db.inboxes host inbox })

/-- Db::remove_inbox: remove by the host of the given URI, returning the
removed inbox URL or a 404. -/
def remove_inbox (env : Env) (db : Db) (uri : Str) : Res (Str × Db) :=
  match host_from_uri env uri with
  | Res.error e => Res.error e
  | Res.ok host =>
    match mapGet db.inboxes host with
    | none => Res.error (Err.StatusAndMessage 404 (("unknown inbox").data))
    | some inbox => Res.ok (inbox, { inboxes := mapRemove db.inboxes host })

/-- Db::inbox: look the domain up after normalising it through
host_from_uri; none on a parse failure or a missing entry. -/
def dbInbox (env : Env) (db : Db) (domain : Str) : Option Str :=
  match host_from_uri env domain with
  | Res.error _ => none
  | Res.ok host => mapGet db.inboxes host

/-- Db::inboxes_for_actor: every registered inbox except the inbox of
the posting actor and any inbox registered for the host that authored the
object.  The source compares against the client Actor inbox string; the
route handlers hold it as an Option, so the comparison is against its
content. -/
def inboxes_for_actor (env : Env) (db : Db) (actor : RActor) (objectId : Str) :
    Res (List Str) :=
  match host_from_uri env objectId with
  | Res.error e => Res.error e
  | Res.ok originHost =>
    Res.ok ((db.inboxes.filter
      (fun p => decide (some p.2 ≠ actor.inbox) && decide (p.1 ≠ originHost))).map Prod.snd)

/-- futures try_join_all over the per-inbox deliveries: Ok when every
delivery succeeded, else the error of a failed delivery (all deliveries
are started concurrently; a failure resolves the combined future with
that error). -/
def tryJoinAll (env : Env) : List Str → Res Unit
  | [] => Res.ok ()
  | inbox :: rest =>
    match env.postResult inbox with
    | some e => Res.error e
    | none => tryJoinAll env rest

/-- State::post_for_actor of src/state.rs: list the recipient inboxes (an
error here returns before anything else happens), post the message to all
of them via try_join_all, then unconditionally insert object id to cache
value into the dedup cache, and return the combined delivery result.
The third component records the inboxes to which a POST was issued. -/
def post_for_actor (env : Env) (st : RelayState) (actor : RActor)
    (objectId cacheValue : Str) : Res Unit × RelayState × List Str :=
  match inboxes_for_actor env st.db actor objectId with
  | Res.error e => (Res.error e, st, [])
  | Res.ok inboxes =>
    let res := tryJoinAll env inboxes
    (res, { st with objectCache := mapInsert st.objectCache objectId cacheValue }, inboxes)

/-- handle_relay of src/routes/inbox.rs for Announce and Create: extract
the inner object id (unwrap abort on a malformed object), parse it as a
URI, read the actor id (expect abort when absent), no-op when the object
id is already cached, otherwise mint a new Announce and fan it out via
post_for_actor. -/
def handle_relay (env : Env) (st : RelayState) (actor : RActor) (activity : Json)
    (host : Str) : Outcome Unit × RelayState × List Str :=
  match id_from_json activity with
  | none => (Outcome.panicked (("id_from_json unwrapped a missing object id").data), st, [])
  | some objectId =>
    if env.uriParses objectId then
      match actor.id with
      | none => (Outcome.panicked (("actor has no id").data), st, [])
      | some _ =>
        match mapGet st.objectCache objectId with
        | some _ => (Outcome.ok (), st, [])
        | none =>
          let activityId := ("https://").data ++ host ++ ("/activities/").data ++ env.uuid
          if env.uriParses activityId then
            if env.uriParses (("https://").data ++ host ++ ("/actor").data) then
              match post_for_actor env st actor objectId activityId with
              | (Res.ok _, st2, posts) => (Outcome.ok (), st2, posts)
              | (Res.error e, st2, posts) => (Outcome.err e, st2, posts)
            else (Outcome.err (Err.InvalidUri (("https://").data ++ host ++ ("/actor").data)), st, [])
          else (Outcome.err (Err.InvalidUri activityId), st, [])
    else (Outcome.err (Err.InvalidUri objectId), st, [])

/-- handle_forward of src/routes/inbox.rs for Delete and Update: extract
the object id (unwrap abort on a malformed object), no-op when cached,
else fan the original activity out verbatim, caching object id to itself. -/
def handle_forward (env : Env) (st : RelayState) (actor : RActor) (activity : Json) :
    Outcome Unit × RelayState × List Str :=
  match id_from_json activity with
  | none => (Outcome.panicked (("id_from_json unwrapped a missing object id").data), st, [])
  | some objectId =>
    if (mapGet st.objectCache objectId).isSome then (Outcome.ok (), st, [])
    else
      match actor.id with
      | none => (Outcome.err (Err.StatusAndMessage 400 (("actor has no id").data)), st, [])
      | some _ =>
        match post_for_actor env st actor objectId objectId with
        | (Res.ok _, st2, posts) => (Outcome.ok (), st2, posts)
        | (Res.error e, st2, posts) => (Outcome.err e, st2, posts)

/-- handle_follow of src/routes/inbox.rs: register the inbox when unknown
and then follow the remote actor; unconditionally build and send an
Accept to the actor inbox (the id extraction of the inner Follow unwraps
and can abort). -/
def handle_follow (env : Env) (st : RelayState) (actor : RActor) (activity : Json)
    (host : Str) : Outcome Unit × RelayState × List Str :=
  match actor.id with
  | none => (Outcome.err (Err.StatusAndMessage 400 (("actor has no id").data)), st, [])
  | some actorId =>
    match actor.inbox with
    | none => (Outcome.err (Err.StatusAndMessage 400 (("actor has no inbox").data)), st, [])
    | some inbox =>
      match add_inbox_if_unknown env st.db inbox with
      | Res.error e => (Outcome.err e, st, [])
      | Res.ok (isNew, db2) =>
        let st2 := { st with db := db2 }
        match (if isNew then env.followActor actorId else Res.ok ()) with
        | Res.error e => (Outcome.err e, st2, [])
        | Res.ok _ =>
          match id_from_json activity with
          | none => (Outcome.panicked (("id_from_json unwrapped a missing object id").data), st2, [])
          | some objectId =>
            if env.uriParses objectId then
              if env.uriParses (("https://").data ++ env.baseUrl ++ ("/actor").data) then
                if env.uriParses (("https://").data ++ host ++ ("/activities/").data ++ env.uuid) then
                  match env.postResult inbox with
                  | some e => (Outcome.err e, st2, [inbox])
                  | none => (Outcome.ok (), st2, [inbox])
                else (Outcome.err (Err.StatusAndMessage 500
                  (("failed to create parseable message id").data)), st2, [])
              else (Outcome.err (Err.InvalidUri
                (("https://").data ++ env.baseUrl ++ ("/actor").data)), st2, [])
            else (Outcome.err (Err.InvalidUri objectId), st2, [])

/-- handle_undo of src/routes/inbox.rs: dispatch on the nested object
type; Follow removes the registry entry and unfollows, Announce forwards
the Undo itself, anything else is a silent no-op. -/
def handle_undo (env : Env) (st : RelayState) (actor : RActor) (activity : Json) :
    Outcome Unit × RelayState × List Str :=
  match jAsStr (jIndex (jIndex activity (("object").data)) (("type").data)) with
  | none => (Outcome.err (Err.StatusAndMessage 400 (("no object type").data)), st, [])
  | some ty =>
    match actor.id with
    | none => (Outcome.err (Err.StatusAndMessage 400 (("actor has no id").data)), st, [])
    | some actorId =>
      if ty = ("Follow").data then
        match remove_inbox env st.db actorId with
        | Res.error e => (Outcome.err e, st, [])
        | Res.ok (_, db2) =>
          let st2 := { st with db := db2 }
          match env.unfollowActor actorId with
          | Res.error e => (Outcome.err e, st2, [])
          | Res.ok _ => (Outcome.ok (), st2, [])
      else if ty = ("Announce").data then handle_forward env st actor activity
      else (Outcome.ok (), st, [])

/-- validate_request of src/routes/inbox.rs: read the actor id (expect
abort when absent), derive its domain, and reject any non-Follow type
whose domain has no registered inbox with a 401 access-denied error. -/
def validate_request (env : Env) (actor : RActor) (ty : Str) (st : RelayState) :
    Outcome Unit :=
  match actor.id with
  | none => Outcome.panicked (("actor has no id").data)
  | some actorId =>
    match host_from_uri env actorId with
    | Res.error e => Outcome.err e
    | Res.ok actorDomain =>
      if ty ≠ ("Follow").data ∧ (dbInbox env st.db actorDomain).isNone then
        Outcome.err (Err.StatusAndMessage 401 (("access denied").data))
      else Outcome.ok ()

/-- The body of POST /inbox. -/
structure InboxRequest where
  ty : Str
  actor : Str
  activity : Json

/-- The POST /inbox handler of src/routes/inbox.rs: fetch the actor
profile, verify the inbound signature over the request method and
path, authorise, then dispatch on the type string; unknown types are
accepted as no-ops.  Returns the handler outcome, the final shared state
and the outbound POSTs issued. -/
def inboxPost (env : Env) (st : RelayState) (headers : List (Str × Str))
    (host : Str) (path : Str) (req : InboxRequest) :
    Outcome Unit × RelayState × List Str :=
  match env.getActor req.actor with
  | Res.error e => (Outcome.err e, st, [])
  | Res.ok actor =>
    match validate_signature env actor (("post").data) path headers with
    | Outcome.err e => (Outcome.err e, st, [])
    | Outcome.panicked msg => (Outcome.panicked msg, st, [])
    | Outcome.ok _ =>
      match validate_request env actor req.ty st with
      | Outcome.err e => (Outcome.err e, st, [])
      | Outcome.panicked msg => (Outcome.panicked msg, st, [])
      | Outcome.ok _ =>
        if req.ty = ("Announce").data ∨ req.ty = ("Create").data then
          handle_relay env st actor req.activity host
        else if req.ty = ("Delete").data ∨ req.ty = ("Update").data then
          handle_forward env st actor req.activity
        else if req.ty = ("Follow").data then
          handle_follow env st actor req.activity host
        else if req.ty = ("Undo").data then
          handle_undo env st actor req.activity
        else (Outcome.ok (), st, [])

theorem splitChar_ne_nil (c : Char) (s : Str) : splitChar c s ≠ [] := by
  induction s with
  | nil => simp [splitChar]
  | cons x xs ih =>
    simp only [splitChar]
    rcases h : splitChar c xs with _ | ⟨y, ys⟩
    · simp
    · by_cases hx : x = c <;> simp [hx]

theorem splitChar_not_mem (c : Char) (s : Str) (h : c ∉ s) : splitChar c s = [s] := by
  induction s with
  | nil => rfl
  | cons x xs ih =>
    simp only [List.mem_cons, not_or] at h
    simp only [splitChar, ih h.2]
    rw [if_neg (fun hx => h.1 hx.symm)]

theorem splitChar_append (c : Char) (a s : Str) (h : c ∉ a) :
    splitChar c (a ++ c :: s) = a :: splitChar c s := by
  induction a with
  | nil =>
    simp only [List.nil_append, splitChar]
    rcases hs : splitChar c s with _ | ⟨y, ys⟩
    · exact absurd hs (splitChar_ne_nil c s)
    · simp
  | cons x xs ih =>
    simp only [List.mem_cons, not_or] at h
    simp only [List.cons_append, splitChar, List.append_eq, ih h.2]
    rw [if_neg (fun hx => h.1 hx.symm)]

theorem splitChar_joinSep (c : Char) (ps : List Str) (hne : ps ≠ [])
    (h : ∀ p ∈ ps, c ∉ p) : splitChar c (joinSep [c] ps) = ps := by
  induction ps with
  | nil => exact absurd rfl hne
  | cons p ps ih =>
    cases ps with
    | nil => exact splitChar_not_mem c p (h p (by simp))
    | cons q qs =>
      have hj : joinSep [c] (p :: q :: qs) = p ++ c :: joinSep [c] (q :: qs) := by
        show p ++ [c] ++ joinSep [c] (q :: qs) = p ++ c :: joinSep [c] (q :: qs)
        rw [List.append_assoc]
        rfl
      rw [hj, splitChar_append c p _ (h p (by simp)),
        ih (by simp) (fun r hr => h r (List.mem_cons_of_mem p hr))]

theorem splitOnce_append (c : Char) (a b : Str) (h : c ∉ a) :
    splitOnce c (a ++ c :: b) = some (a, b) := by
  induction a with
  | nil => simp [splitOnce]
  | cons x xs ih =>
    simp only [List.mem_cons, not_or] at h
    simp only [List.cons_append, splitOnce, List.append_eq, ih h.2]
    rw [if_neg (fun hx => h.1 hx.symm)]
    rfl

theorem stripTrailQ_append (s : Str) : stripTrailQ (s ++ ['"']) = some s := by
  simp [stripTrailQ, List.reverse_append]

theorem parsePair_quoted (k v : Str) (hk : '=' ∉ k) :
    parsePair (k ++ '=' :: '"' :: (v ++ ['"'])) = Res.ok (k, v) := by
  simp only [parsePair, splitOnce_append '=' k ('"' :: (v ++ ['"'])) hk]
  simp [stripLeadQ, stripTrailQ_append]

theorem mapGet_append_single (m : List (Str × Str)) (k v : Str) :
    mapGet (m ++ [(k, v)]) k = some v := by
  induction m with
  | nil => simp [mapGet]
  | cons p rest ih =>
    simp only [List.cons_append, mapGet, List.append_eq, ih]

theorem tryJoinAll_ok_iff (env : Env) (l : List Str) :
    tryJoinAll env l = Res.ok () ↔ ∀ i ∈ l, env.postResult i = none := by
  induction l with
  | nil => simp [tryJoinAll]
  | cons inbox rest ih =>
    simp only [tryJoinAll]
    rcases h : env.postResult inbox with _ | e
    · simp [ih, h]
    · simp [h]

/-- The request target string computed by sign_request_headers: post when
a body is present, get otherwise, then a space and the URI path. -/
def canonicalTarget (env : Env) (uri : Str) (data : Option Str) : Str :=
  (if data.isSome then ("post").data else ("get").data) ++ (" ").data ++ env.uriPath uri

/-- The canonical signing string of a request signed by
sign_request_headers. -/
def canonicalMsg (env : Env) (uri host : Str) (data : Option Str) : Str :=
  build_signing_string (signedPairs env (canonicalTarget env uri data) host data)

/-- The header map returned by sign_request_headers on success. -/
def signedHeaders (env : Env) (uri host : Str) (data : Option Str) : List (Str × Str) :=
  mapRemove
    (mapInsert (signedPairs env (canonicalTarget env uri data) host data)
      (("signature").data)
      (create_signature env (signedPairs env (canonicalTarget env uri data) host data)))
    (("(request-target)").data)

theorem sign_request_headers_eq (env : Env) (uri host : Str) (data : Option Str)
    (h1 : env.uriParses uri = true) (h2 : env.uriHost uri = some host) :
    sign_request_headers env uri data = Res.ok (signedHeaders env uri host data) := by
  simp only [sign_request_headers, h1, h2]
  rfl

theorem split_sig_header (env : Env) (signature : Str) (names : List Str)
    (hB : ',' ∉ env.baseUrl) (hS : ',' ∉ signature) (hN : ',' ∉ joinSep ([' ']) names) :
    split_signature (build_sig_header env signature names) =
      Res.ok [(("keyId").data, ("https://").data ++ env.baseUrl ++ ("/actor#main-key").data),
              (("algorithm").data, ("rsa-sha256").data),
              (("headers").data, joinSep ([' ']) names),
              (("signature").data, signature)] := by
  have hm1 : ',' ∉ ("keyId=\"https://").data ++ env.baseUrl ++ ("/actor#main-key\"").data := by
    intro hc
    rcases List.mem_append.mp hc with hc2 | hc2
    · rcases List.mem_append.mp hc2 with hc3 | hc3
      · exact absurd hc3 (by decide)
      · exact hB hc3
    · exact absurd hc2 (by decide)
  have hm3 : ',' ∉ ("headers=\"").data ++ joinSep ([' ']) names ++ ("\"").data := by
    intro hc
    rcases List.mem_append.mp hc with hc2 | hc2
    · rcases List.mem_append.mp hc2 with hc3 | hc3
      · exact absurd hc3 (by decide)
      · exact hN hc3
    · exact absurd hc2 (by decide)
  have hm4 : ',' ∉ ("signature=\"").data ++ signature ++ ("\"").data := by
    intro hc
    rcases List.mem_append.mp hc with hc2 | hc2
    · rcases List.mem_append.mp hc2 with hc3 | hc3
      · exact absurd hc3 (by decide)
      · exact hS hc3
    · exact absurd hc2 (by decide)
  have hmem : ∀ p ∈ [("keyId=\"https://").data ++ env.baseUrl ++ ("/actor#main-key\"").data,
      ("algorithm=\"rsa-sha256\"").data,
      ("headers=\"").data ++ joinSep ([' ']) names ++ ("\"").data,
      ("signature=\"").data ++ signature ++ ("\"").data], ',' ∉ p := by
    intro p hp
    simp only [List.mem_cons, List.not_mem_nil, or_false] at hp
    rcases hp with h | h | h | h
    · exact h ▸ hm1
    · exact h ▸ (by decide : ',' ∉ ("algorithm=\"rsa-sha256\"").data)
    · exact h ▸ hm3
    · exact h ▸ hm4
  have hsplit : splitChar ',' (build_sig_header env signature names) =
      [("keyId=\"https://").data ++ env.baseUrl ++ ("/actor#main-key\"").data,
       ("algorithm=\"rsa-sha256\"").data,
       ("headers=\"").data ++ joinSep ([' ']) names ++ ("\"").data,
       ("signature=\"").data ++ signature ++ ("\"").data] :=
    splitChar_joinSep ',' _ (by simp) hmem
  have e1 : ("keyId=\"https://").data ++ env.baseUrl ++ ("/actor#main-key\"").data
      = ("keyId").data ++ '=' :: '"' ::
        ((("https://").data ++ env.baseUrl ++ ("/actor#main-key").data) ++ ['"']) := by
    have d1 : ("keyId=\"https://").data = ("keyId").data ++ '=' :: '"' :: ("https://").data := by
      decide
    have d2 : ("/actor#main-key\"").data = ("/actor#main-key").data ++ ['"'] := by decide
    rw [d1, d2]
    simp [List.append_assoc]
  have hp1 : parsePair (("keyId=\"https://").data ++ env.baseUrl ++ ("/actor#main-key\"").data)
      = Res.ok (("keyId").data, ("https://").data ++ env.baseUrl ++ ("/actor#main-key").data) := by
    rw [e1]
    exact parsePair_quoted _ _ (by decide)
  have hp2 : parsePair (("algorithm=\"rsa-sha256\"").data)
      = Res.ok (("algorithm").data, ("rsa-sha256").data) := by decide
  have e3 : ("headers=\"").data ++ joinSep ([' ']) names ++ ("\"").data
      = ("headers").data ++ '=' :: '"' :: (joinSep ([' ']) names ++ ['"']) := by
    have d3 : ("headers=\"").data = ("headers").data ++ '=' :: '"' :: [] := by decide
    have d4 : ("\"").data = ['"'] := by decide
    rw [d3, d4]
    simp [List.append_assoc]
  have hp3 : parsePair (("headers=\"").data ++ joinSep ([' ']) names ++ ("\"").data)
      = Res.ok (("headers").data, joinSep ([' ']) names) := by
    rw [e3]
    exact parsePair_quoted _ _ (by decide)
  have e4 : ("signature=\"").data ++ signature ++ ("\"").data
      = ("signature").data ++ '=' :: '"' :: (signature ++ ['"']) := by
    have d5 : ("signature=\"").data = ("signature").data ++ '=' :: '"' :: [] := by decide
    have d6 : ("\"").data = ['"'] := by decide
    rw [d5, d6]
    simp [List.append_assoc]
  have hp4 : parsePair (("signature=\"").data ++ signature ++ ("\"").data)
      = Res.ok (("signature").data, signature) := by
    rw [e4]
    exact parsePair_quoted _ _ (by decide)
  simp only [split_signature, hsplit, collectPairs, hp1, hp2, hp3, hp4]

/-- C1: for every valid signing keypair (the verifier accepts the relay
signature on the canonical message and base64 decode inverts encode on
it, with the encoded signature and the configured base url comma-free so
the header survives its own wire format), every target URI with a host
and every optional body, building headers with sign_request_headers and
checking them with validate_signature using the matching public key, the
method implied by body presence and the URI path succeeds. -/
theorem sign_then_validate_ok (env : Env) (uri : Str) (data : Option Str) (actor : RActor)
    (host : Str)
    (h1 : env.uriParses uri = true)
    (h2 : env.uriHost uri = some host)
    (hv : env.verify256 actor.pubKey (canonicalMsg env uri host data)
        (env.sign (canonicalMsg env uri host data)) = true)
    (hb : env.b64decode (env.b64encode (env.sign (canonicalMsg env uri host data)))
        = some (env.sign (canonicalMsg env uri host data)))
    (hc : ',' ∉ env.b64encode (env.sign (canonicalMsg env uri host data)))
    (hB : ',' ∉ env.baseUrl) :
    sign_request_headers env uri data = Res.ok (signedHeaders env uri host data) ∧
    validate_signature env actor (if data.isSome then ("post").data else ("get").data)
      (env.uriPath uri) (signedHeaders env uri host data) = Outcome.ok () := by
  refine ⟨sign_request_headers_eq env uri host data h1 h2, ?_⟩
  cases data with
  | none =>
    show validate_stage2 env actor.pubKey ((("get").data ++ (" ").data ++ env.uriPath uri))
        (mapInsert (signedHeaders env uri host none) (("(request-target)").data)
          (("get").data ++ (" ").data ++ env.uriPath uri))
        (split_signature (build_sig_header env
          (env.b64encode (env.sign (canonicalMsg env uri host none)))
          [("(request-target)").data, ("date").data, ("host").data]))
        = Outcome.ok ()
    rw [split_sig_header env (env.b64encode (env.sign (canonicalMsg env uri host none)))
      [("(request-target)").data, ("date").data, ("host").data] hB hc (by decide)]
    show validate_stage3 env actor.pubKey
        (mapInsert (signedHeaders env uri host none) (("(request-target)").data)
          (("get").data ++ (" ").data ++ env.uriPath uri))
        (mapInsert
          [(("keyId").data, ("https://").data ++ env.baseUrl ++ ("/actor#main-key").data),
           (("algorithm").data, ("rsa-sha256").data),
           (("headers").data,
             joinSep ([' ']) [("(request-target)").data, ("date").data, ("host").data]),
           (("signature").data, env.b64encode (env.sign (canonicalMsg env uri host none)))]
          (("(request-target)").data) (("get").data ++ (" ").data ++ env.uriPath uri))
        (env.b64decode (env.b64encode (env.sign (canonicalMsg env uri host none))))
        = Outcome.ok ()
    rw [hb]
    show (if env.verify256 actor.pubKey (canonicalMsg env uri host none)
        (env.sign (canonicalMsg env uri host none)) = true then Outcome.ok ()
        else Outcome.err INVALID_SIG) = Outcome.ok ()
    rw [hv]
    rfl
  | some s =>
    show validate_stage2 env actor.pubKey ((("post").data ++ (" ").data ++ env.uriPath uri))
        (mapInsert (signedHeaders env uri host (some s)) (("(request-target)").data)
          (("post").data ++ (" ").data ++ env.uriPath uri))
        (split_signature (build_sig_header env
          (env.b64encode (env.sign (canonicalMsg env uri host (some s))))
          [("(request-target)").data, ("date").data, ("host").data,
           ("content-length").data, ("digest").data]))
        = Outcome.ok ()
    rw [split_sig_header env (env.b64encode (env.sign (canonicalMsg env uri host (some s))))
      [("(request-target)").data, ("date").data, ("host").data,
       ("content-length").data, ("digest").data] hB hc (by decide)]
    show validate_stage3 env actor.pubKey
        (mapInsert (signedHeaders env uri host (some s)) (("(request-target)").data)
          (("post").data ++ (" ").data ++ env.uriPath uri))
        (mapInsert
          [(("keyId").data, ("https://").data ++ env.baseUrl ++ ("/actor#main-key").data),
           (("algorithm").data, ("rsa-sha256").data),
           (("headers").data,
             joinSep ([' ']) [("(request-target)").data, ("date").data, ("host").data,
               ("content-length").data, ("digest").data]),
           (("signature").data, env.b64encode (env.sign (canonicalMsg env uri host (some s))))]
          (("(request-target)").data) (("post").data ++ (" ").data ++ env.uriPath uri))
        (env.b64decode (env.b64encode (env.sign (canonicalMsg env uri host (some s)))))
        = Outcome.ok ()
    rw [hb]
    show (if env.verify256 actor.pubKey (canonicalMsg env uri host (some s))
        (env.sign (canonicalMsg env uri host (some s))) = true then Outcome.ok ()
        else Outcome.err INVALID_SIG) = Outcome.ok ()
    rw [hv]
    rfl

/-- Concrete collaborator instantiation for the signing round trip: the
signature primitive is a constant accepted by the verifier, base64 is the
identity. -/
def w1Env : Env where
  uriParses := fun _ => true
  uriHost := fun _ => some (("example.com").data)
  uriPath := fun _ => ("/inbox").data
  date := ("Mon 01 Jan 2024 00:00:00 UTC").data
  uuid := ("uuid-1").data
  baseUrl := ("relay.example").data
  sha256 := fun s => s
  b64encode := fun s => s
  b64decode := fun s => some s
  sign := fun _ => ("SIGBYTES").data
  verify256 := fun _ _ sigData => sigData == ("SIGBYTES").data
  verify512 := fun _ _ _ => false
  getActor := fun _ => Res.error Err.MissingSignature
  followActor := fun _ => Res.ok ()
  unfollowActor := fun _ => Res.ok ()
  postResult := fun _ => none

/-- The remote actor used by the signature witnesses. -/
def w1Actor : RActor where
  id := some (("https://example.com/actor").data)
  inbox := some (("https://example.com/inbox").data)
  pubKey := ("PUBKEY").data

/-- C1 witness: the round trip theorem applied at a concrete environment,
URI and body. -/
theorem sign_then_validate_ok_witness :
    sign_request_headers w1Env (("https://example.com/inbox").data) (some (("hello").data))
        = Res.ok (signedHeaders w1Env (("https://example.com/inbox").data)
            (("example.com").data) (some (("hello").data))) ∧
    validate_signature w1Env w1Actor
        (if (some (("hello").data)).isSome then ("post").data else ("get").data)
        (w1Env.uriPath (("https://example.com/inbox").data))
        (signedHeaders w1Env (("https://example.com/inbox").data) (("example.com").data)
          (some (("hello").data))) = Outcome.ok () :=
  sign_then_validate_ok w1Env (("https://example.com/inbox").data) (some (("hello").data))
    w1Actor (("example.com").data) rfl rfl (by decide) (by decide) (by decide) (by decide)

/-- Replace the value stored under one header name, modelling the mutation
of a single field of an already-signed request. -/
def setHeader (headers : List (Str × Str)) (k v : Str) : List (Str × Str) :=
  headers.map (fun p => if p.1 = k then (k, v) else p)

theorem line_nl_free (k v : Str) (hk : '\n' ∉ k) (hv : '\n' ∉ v) :
    '\n' ∉ k ++ (": \"").data ++ v ++ ("\"").data := by
  intro hc
  rcases List.mem_append.mp hc with hc2 | hc2
  · rcases List.mem_append.mp hc2 with hc3 | hc3
    · rcases List.mem_append.mp hc3 with hc4 | hc4
      · exact hk hc4
      · exact absurd hc4 (by decide)
    · exact hv hc3
  · exact absurd hc2 (by decide)

theorem bss_inj5 (t1 d1 h1 c1 g1 t2 d2 h2 c2 g2 : Str)
    (nt1 : '\n' ∉ t1) (nd1 : '\n' ∉ d1) (nh1 : '\n' ∉ h1) (nc1 : '\n' ∉ c1) (ng1 : '\n' ∉ g1)
    (nt2 : '\n' ∉ t2) (nd2 : '\n' ∉ d2) (nh2 : '\n' ∉ h2) (nc2 : '\n' ∉ c2) (ng2 : '\n' ∉ g2)
    (heq : build_signing_string
        [(("(request-target)").data, t1), (("date").data, d1), (("host").data, h1),
         (("content-length").data, c1), (("digest").data, g1)]
      = build_signing_string
        [(("(request-target)").data, t2), (("date").data, d2), (("host").data, h2),
         (("content-length").data, c2), (("digest").data, g2)]) :
    t1 = t2 ∧ d1 = d2 ∧ h1 = h2 ∧ c1 = c2 ∧ g1 = g2 := by
  have hmem1 : ∀ p ∈ [
      ("(request-target)").data ++ (": \"").data ++ t1 ++ ("\"").data,
      ("date").data ++ (": \"").data ++ d1 ++ ("\"").data,
      ("host").data ++ (": \"").data ++ h1 ++ ("\"").data,
      ("content-length").data ++ (": \"").data ++ c1 ++ ("\"").data,
      ("digest").data ++ (": \"").data ++ g1 ++ ("\"").data], '\n' ∉ p := by
    intro p hp
    simp only [List.mem_cons, List.not_mem_nil, or_false] at hp
    rcases hp with h | h | h | h | h
    · exact h ▸ line_nl_free _ _ (by decide) nt1
    · exact h ▸ line_nl_free _ _ (by decide) nd1
    · exact h ▸ line_nl_free _ _ (by decide) nh1
    · exact h ▸ line_nl_free _ _ (by decide) nc1
    · exact h ▸ line_nl_free _ _ (by decide) ng1
  have hmem2 : ∀ p ∈ [
      ("(request-target)").data ++ (": \"").data ++ t2 ++ ("\"").data,
      ("date").data ++ (": \"").data ++ d2 ++ ("\"").data,
      ("host").data ++ (": \"").data ++ h2 ++ ("\"").data,
      ("content-length").data ++ (": \"").data ++ c2 ++ ("\"").data,
      ("digest").data ++ (": \"").data ++ g2 ++ ("\"").data], '\n' ∉ p := by
    intro p hp
    simp only [List.mem_cons, List.not_mem_nil, or_false] at hp
    rcases hp with h | h | h | h | h
    · exact h ▸ line_nl_free _ _ (by decide) nt2
    · exact h ▸ line_nl_free _ _ (by decide) nd2
    · exact h ▸ line_nl_free _ _ (by decide) nh2
    · exact h ▸ line_nl_free _ _ (by decide) nc2
    · exact h ▸ line_nl_free _ _ (by decide) ng2
  have hsplit := congrArg (splitChar '\n') heq
  rw [show build_signing_string
        [(("(request-target)").data, t1), (("date").data, d1), (("host").data, h1),
         (("content-length").data, c1), (("digest").data, g1)]
      = joinSep ['\n'] [
        ("(request-target)").data ++ (": \"").data ++ t1 ++ ("\"").data,
        ("date").data ++ (": \"").data ++ d1 ++ ("\"").data,
        ("host").data ++ (": \"").data ++ h1 ++ ("\"").data,
        ("content-length").data ++ (": \"").data ++ c1 ++ ("\"").data,
        ("digest").data ++ (": \"").data ++ g1 ++ ("\"").data] from rfl,
    show build_signing_string
        [(("(request-target)").data, t2), (("date").data, d2), (("host").data, h2),
         (("content-length").data, c2), (("digest").data, g2)]
      = joinSep ['\n'] [
        ("(request-target)").data ++ (": \"").data ++ t2 ++ ("\"").data,
        ("date").data ++ (": \"").data ++ d2 ++ ("\"").data,
        ("host").data ++ (": \"").data ++ h2 ++ ("\"").data,
        ("content-length").data ++ (": \"").data ++ c2 ++ ("\"").data,
        ("digest").data ++ (": \"").data ++ g2 ++ ("\"").data] from rfl,
    splitChar_joinSep '\n' _ (by simp) hmem1,
    splitChar_joinSep '\n' _ (by simp) hmem2] at hsplit
  simp only [List.cons.injEq, and_true] at hsplit
  obtain ⟨e1, e2, e3, e4, e5⟩ := hsplit
  refine ⟨List.append_cancel_left (List.append_cancel_right e1),
    List.append_cancel_left (List.append_cancel_right e2),
    List.append_cancel_left (List.append_cancel_right e3),
    List.append_cancel_left (List.append_cancel_right e4),
    List.append_cancel_left (List.append_cancel_right e5)⟩

/-- C2 amended: for a correctly signed request with a body, mutating the
date header, the digest header, or the request path to any other
newline-free value makes validate_signature fail with the generic
invalid-signature error, under a sound verifier (only the canonical
message verifies against the issued signature).  Mutating the body alone
is not detected: validate_signature never receives the body, which the
companion counterexample exhibits. -/
theorem mutation_detected (env : Env) (uri s : Str) (actor : RActor) (host : Str)
    (h1 : env.uriParses uri = true) (h2 : env.uriHost uri = some host)
    (hsound : ∀ m, env.verify256 actor.pubKey m
        (env.sign (canonicalMsg env uri host (some s))) = true
        → m = canonicalMsg env uri host (some s))
    (hb : env.b64decode (env.b64encode (env.sign (canonicalMsg env uri host (some s))))
        = some (env.sign (canonicalMsg env uri host (some s))))
    (hc : ',' ∉ env.b64encode (env.sign (canonicalMsg env uri host (some s))))
    (hB : ',' ∉ env.baseUrl)
    (nd : '\n' ∉ env.date) (nh : '\n' ∉ host) (np : '\n' ∉ env.uriPath uri)
    (ncl : '\n' ∉ (toString s.length).data)
    (ndg : '\n' ∉ env.b64encode (env.sha256 s)) :
    (∀ d2, d2 ≠ env.date → '\n' ∉ d2 →
      validate_signature env actor (("post").data) (env.uriPath uri)
        (setHeader (signedHeaders env uri host (some s)) (("date").data) d2)
        = Outcome.err INVALID_SIG) ∧
    (∀ g2, g2 ≠ ("SHA-256=").data ++ env.b64encode (env.sha256 s) → '\n' ∉ g2 →
      validate_signature env actor (("post").data) (env.uriPath uri)
        (setHeader (signedHeaders env uri host (some s)) (("digest").data) g2)
        = Outcome.err INVALID_SIG) ∧
    (∀ p2, p2 ≠ env.uriPath uri → '\n' ∉ p2 →
      validate_signature env actor (("post").data) p2
        (signedHeaders env uri host (some s))
        = Outcome.err INVALID_SIG) := by
  have nT : '\n' ∉ ("post").data ++ (" ").data ++ env.uriPath uri := by
    intro hcx
    rcases List.mem_append.mp hcx with h | h
    · rcases List.mem_append.mp h with hx | hx
      · exact absurd hx (by decide)
      · exact absurd hx (by decide)
    · exact np h
  have nT2 : '\n' ∉ canonicalTarget env uri (some s) := nT
  have nDG : '\n' ∉ ("SHA-256=").data ++ env.b64encode (env.sha256 s) := by
    intro hcx
    rcases List.mem_append.mp hcx with h | h
    · exact absurd h (by decide)
    · exact ndg h
  refine ⟨?_, ?_, ?_⟩
  · intro d2 hd2 nd2
    show validate_stage2 env actor.pubKey ((("post").data ++ (" ").data ++ env.uriPath uri))
        (mapInsert (setHeader (signedHeaders env uri host (some s)) (("date").data) d2)
          (("(request-target)").data) (("post").data ++ (" ").data ++ env.uriPath uri))
        (split_signature (build_sig_header env
          (env.b64encode (env.sign (canonicalMsg env uri host (some s))))
          [("(request-target)").data, ("date").data, ("host").data,
           ("content-length").data, ("digest").data]))
        = Outcome.err INVALID_SIG
    rw [split_sig_header env (env.b64encode (env.sign (canonicalMsg env uri host (some s))))
      [("(request-target)").data, ("date").data, ("host").data,
       ("content-length").data, ("digest").data] hB hc (by decide)]
    show validate_stage3 env actor.pubKey
        (mapInsert (setHeader (signedHeaders env uri host (some s)) (("date").data) d2)
          (("(request-target)").data) (("post").data ++ (" ").data ++ env.uriPath uri))
        (mapInsert
          [(("keyId").data, ("https://").data ++ env.baseUrl ++ ("/actor#main-key").data),
           (("algorithm").data, ("rsa-sha256").data),
           (("headers").data,
             joinSep ([' ']) [("(request-target)").data, ("date").data, ("host").data,
               ("content-length").data, ("digest").data]),
           (("signature").data, env.b64encode (env.sign (canonicalMsg env uri host (some s))))]
          (("(request-target)").data) (("post").data ++ (" ").data ++ env.uriPath uri))
        (env.b64decode (env.b64encode (env.sign (canonicalMsg env uri host (some s)))))
        = Outcome.err INVALID_SIG
    rw [hb]
    show (if env.verify256 actor.pubKey (build_signing_string
        [(("(request-target)").data, ("post").data ++ (" ").data ++ env.uriPath uri),
         (("date").data, d2), (("host").data, host),
         (("content-length").data, (toString s.length).data),
         (("digest").data, ("SHA-256=").data ++ env.b64encode (env.sha256 s))])
        (env.sign (canonicalMsg env uri host (some s))) = true then Outcome.ok ()
        else Outcome.err INVALID_SIG) = Outcome.err INVALID_SIG
    cases hvv : env.verify256 actor.pubKey (build_signing_string
        [(("(request-target)").data, ("post").data ++ (" ").data ++ env.uriPath uri),
         (("date").data, d2), (("host").data, host),
         (("content-length").data, (toString s.length).data),
         (("digest").data, ("SHA-256=").data ++ env.b64encode (env.sha256 s))])
        (env.sign (canonicalMsg env uri host (some s))) with
    | false => rfl
    | true =>
      exfalso
      have hM := hsound _ hvv
      have h5 := bss_inj5 (("post").data ++ (" ").data ++ env.uriPath uri) d2 host
        ((toString s.length).data) (("SHA-256=").data ++ env.b64encode (env.sha256 s))
        (canonicalTarget env uri (some s)) env.date host
        ((toString s.length).data) (("SHA-256=").data ++ env.b64encode (env.sha256 s))
        nT nd2 nh ncl nDG nT2 nd nh ncl nDG hM
      exact hd2 h5.2.1
  · intro g2 hg2 ng2
    show validate_stage2 env actor.pubKey ((("post").data ++ (" ").data ++ env.uriPath uri))
        (mapInsert (setHeader (signedHeaders env uri host (some s)) (("digest").data) g2)
          (("(request-target)").data) (("post").data ++ (" ").data ++ env.uriPath uri))
        (split_signature (build_sig_header env
          (env.b64encode (env.sign (canonicalMsg env uri host (some s))))
          [("(request-target)").data, ("date").data, ("host").data,
           ("content-length").data, ("digest").data]))
        = Outcome.err INVALID_SIG
    rw [split_sig_header env (env.b64encode (env.sign (canonicalMsg env uri host (some s))))
      [("(request-target)").data, ("date").data, ("host").data,
       ("content-length").data, ("digest").data] hB hc (by decide)]
    show validate_stage3 env actor.pubKey
        (mapInsert (setHeader (signedHeaders env uri host (some s)) (("digest").data) g2)
          (("(request-target)").data) (("post").data ++ (" ").data ++ env.uriPath uri))
        (mapInsert
          [(("keyId").data, ("https://").data ++ env.baseUrl ++ ("/actor#main-key").data),
           (("algorithm").data, ("rsa-sha256").data),
           (("headers").data,
             joinSep ([' ']) [("(request-target)").data, ("date").data, ("host").data,
               ("content-length").data, ("digest").data]),
           (("signature").data, env.b64encode (env.sign (canonicalMsg env uri host (some s))))]
          (("(request-target)").data) (("post").data ++ (" ").data ++ env.uriPath uri))
        (env.b64decode (env.b64encode (env.sign (canonicalMsg env uri host (some s)))))
        = Outcome.err INVALID_SIG
    rw [hb]
    show (if env.verify256 actor.pubKey (build_signing_string
        [(("(request-target)").data, ("post").data ++ (" ").data ++ env.uriPath uri),
         (("date").data, env.date), (("host").data, host),
         (("content-length").data, (toString s.length).data),
         (("digest").data, g2)])
        (env.sign (canonicalMsg env uri host (some s))) = true then Outcome.ok ()
        else Outcome.err INVALID_SIG) = Outcome.err INVALID_SIG
    cases hvv : env.verify256 actor.pubKey (build_signing_string
        [(("(request-target)").data, ("post").data ++ (" ").data ++ env.uriPath uri),
         (("date").data, env.date), (("host").data, host),
         (("content-length").data, (toString s.length).data),
         (("digest").data, g2)])
        (env.sign (canonicalMsg env uri host (some s))) with
    | false => rfl
    | true =>
      exfalso
      have hM := hsound _ hvv
      have h5 := bss_inj5 (("post").data ++ (" ").data ++ env.uriPath uri) env.date host
        ((toString s.length).data) g2
        (canonicalTarget env uri (some s)) env.date host
        ((toString s.length).data) (("SHA-256=").data ++ env.b64encode (env.sha256 s))
        nT nd nh ncl ng2 nT2 nd nh ncl nDG hM
      exact hg2 h5.2.2.2.2
  · intro p2 hp2 np2
    have nTp : '\n' ∉ ("post").data ++ (" ").data ++ p2 := by
      intro hcx
      rcases List.mem_append.mp hcx with h | h
      · rcases List.mem_append.mp h with hx | hx
        · exact absurd hx (by decide)
        · exact absurd hx (by decide)
      · exact np2 h
    show validate_stage2 env actor.pubKey ((("post").data ++ (" ").data ++ p2))
        (mapInsert (signedHeaders env uri host (some s))
          (("(request-target)").data) (("post").data ++ (" ").data ++ p2))
        (split_signature (build_sig_header env
          (env.b64encode (env.sign (canonicalMsg env uri host (some s))))
          [("(request-target)").data, ("date").data, ("host").data,
           ("content-length").data, ("digest").data]))
        = Outcome.err INVALID_SIG
    rw [split_sig_header env (env.b64encode (env.sign (canonicalMsg env uri host (some s))))
      [("(request-target)").data, ("date").data, ("host").data,
       ("content-length").data, ("digest").data] hB hc (by decide)]
    show validate_stage3 env actor.pubKey
        (mapInsert (signedHeaders env uri host (some s))
          (("(request-target)").data) (("post").data ++ (" ").data ++ p2))
        (mapInsert
          [(("keyId").data, ("https://").data ++ env.baseUrl ++ ("/actor#main-key").data),
           (("algorithm").data, ("rsa-sha256").data),
           (("headers").data,
             joinSep ([' ']) [("(request-target)").data, ("date").data, ("host").data,
               ("content-length").data, ("digest").data]),
           (("signature").data, env.b64encode (env.sign (canonicalMsg env uri host (some s))))]
          (("(request-target)").data) (("post").data ++ (" ").data ++ p2))
        (env.b64decode (env.b64encode (env.sign (canonicalMsg env uri host (some s)))))
        = Outcome.err INVALID_SIG
    rw [hb]
    show (if env.verify256 actor.pubKey (build_signing_string
        [(("(request-target)").data, ("post").data ++ (" ").data ++ p2),
         (("date").data, env.date), (("host").data, host),
         (("content-length").data, (toString s.length).data),
         (("digest").data, ("SHA-256=").data ++ env.b64encode (env.sha256 s))])
        (env.sign (canonicalMsg env uri host (some s))) = true then Outcome.ok ()
        else Outcome.err INVALID_SIG) = Outcome.err INVALID_SIG
    cases hvv : env.verify256 actor.pubKey (build_signing_string
        [(("(request-target)").data, ("post").data ++ (" ").data ++ p2),
         (("date").data, env.date), (("host").data, host),
         (("content-length").data, (toString s.length).data),
         (("digest").data, ("SHA-256=").data ++ env.b64encode (env.sha256 s))])
        (env.sign (canonicalMsg env uri host (some s))) with
    | false => rfl
    | true =>
      exfalso
      have hM := hsound _ hvv
      have h5 := bss_inj5 (("post").data ++ (" ").data ++ p2) env.date host
        ((toString s.length).data) (("SHA-256=").data ++ env.b64encode (env.sha256 s))
        (canonicalTarget env uri (some s)) env.date host
        ((toString s.length).data) (("SHA-256=").data ++ env.b64encode (env.sha256 s))
        nTp nd nh ncl nDG nT2 nd nh ncl nDG hM
      have ht : (("post").data ++ (" ").data) ++ p2
          = (("post").data ++ (" ").data) ++ env.uriPath uri := h5.1
      exact hp2 (List.append_cancel_left ht)

/-- Concrete collaborator instantiation with a sound verifier: signing is
the identity on the canonical message and verification compares the
message against the signature bytes, so only the signed canonical string
verifies. -/
def w2Env : Env where
  uriParses := fun _ => true
  uriHost := fun _ => some (("example.com").data)
  uriPath := fun _ => ("/inbox").data
  date := ("Mon 01 Jan 2024 00:00:00 UTC").data
  uuid := ("uuid-2").data
  baseUrl := ("relay.example").data
  sha256 := fun s => s
  b64encode := fun s => s
  b64decode := fun s => some s
  sign := fun m => m
  verify256 := fun _ m sigData => m == sigData
  verify512 := fun _ _ _ => false
  getActor := fun _ => Res.error Err.MissingSignature
  followActor := fun _ => Res.ok ()
  unfollowActor := fun _ => Res.ok ()
  postResult := fun _ => none

/-- C2 witness: the mutation theorem applied at a concrete environment,
mutating the date to a different date, the digest to a tampered digest,
and the path to a different path. -/
theorem mutation_detected_witness :
    validate_signature w2Env w1Actor (("post").data)
      (w2Env.uriPath (("https://example.com/inbox").data))
      (setHeader (signedHeaders w2Env (("https://example.com/inbox").data)
        (("example.com").data) (some (("hello").data)))
        (("date").data) (("Tue 02 Jan 2024 00:00:00 UTC").data))
      = Outcome.err INVALID_SIG ∧
    validate_signature w2Env w1Actor (("post").data)
      (w2Env.uriPath (("https://example.com/inbox").data))
      (setHeader (signedHeaders w2Env (("https://example.com/inbox").data)
        (("example.com").data) (some (("hello").data)))
        (("digest").data) (("SHA-256=tampered").data))
      = Outcome.err INVALID_SIG ∧
    validate_signature w2Env w1Actor (("post").data) (("/other").data)
      (signedHeaders w2Env (("https://example.com/inbox").data)
        (("example.com").data) (some (("hello").data)))
      = Outcome.err INVALID_SIG := by
  have h := mutation_detected w2Env (("https://example.com/inbox").data) (("hello").data)
    w1Actor (("example.com").data) rfl rfl (fun _ hm => eq_of_beq hm)
    (by decide) (by decide) (by decide) (by decide) (by decide) (by decide) (by decide)
    (by decide)
  exact ⟨h.1 _ (by decide) (by decide), h.2.1 _ (by decide) (by decide),
    h.2.2 _ (by decide) (by decide)⟩

set_option maxRecDepth 4000 in
/-- C2 counterexample: the claim also requires a mutation of the request
body to make verification fail, but validate_signature never receives the
body; a request signed for one body still verifies when presented with a
different body, because the headers (including the digest) are the only
input.  Here the bodies differ, the headers are those signed for the
first body, and verification still succeeds under the sound verifier. -/
theorem body_mutation_not_detected :
    ("hello").data ≠ ("tampered").data ∧
    sign_request_headers w2Env (("https://example.com/inbox").data) (some (("hello").data))
      = Res.ok (signedHeaders w2Env (("https://example.com/inbox").data)
        (("example.com").data) (some (("hello").data))) ∧
    validate_signature w2Env w1Actor (("post").data)
      (w2Env.uriPath (("https://example.com/inbox").data))
      (signedHeaders w2Env (("https://example.com/inbox").data) (("example.com").data)
        (some (("hello").data))) = Outcome.ok () := by
  refine ⟨by decide, by decide, by decide⟩

theorem validate_signature_missing (env : Env) (actor : RActor) (method path : Str)
    (headers : List (Str × Str)) (h : mapGet headers (("signature").data) = none) :
    validate_signature env actor method path headers = Outcome.err Err.MissingSignature := by
  simp only [validate_signature, h]

theorem inboxPost_getActor_err (env : Env) (st : RelayState) (headers : List (Str × Str))
    (host path : Str) (req : InboxRequest) (e : Err)
    (hga : env.getActor req.actor = Res.error e) :
    inboxPost env st headers host path req = (Outcome.err e, st, []) := by
  simp only [inboxPost, hga]

theorem inboxPost_validate_err (env : Env) (st : RelayState) (headers : List (Str × Str))
    (host path : Str) (req : InboxRequest) (actor : RActor) (e : Err)
    (hga : env.getActor req.actor = Res.ok actor)
    (hv : validate_signature env actor (("post").data) path headers = Outcome.err e) :
    inboxPost env st headers host path req = (Outcome.err e, st, []) := by
  simp only [inboxPost, hga, hv]

theorem inboxPost_validate_panicked (env : Env) (st : RelayState) (headers : List (Str × Str))
    (host path : Str) (req : InboxRequest) (actor : RActor) (msg : Str)
    (hga : env.getActor req.actor = Res.ok actor)
    (hv : validate_signature env actor (("post").data) path headers = Outcome.panicked msg) :
    inboxPost env st headers host path req = (Outcome.panicked msg, st, []) := by
  simp only [inboxPost, hga, hv]

/-- C3: no mutation of the inbox registry or the dedup cache happens
before the inbound signature verifies: whenever verification does not
succeed the handler returns the failure with the shared state unchanged
and no outbound POST issued; in particular a request without a Signature
header is rejected, the rejection is MissingSignature whenever the actor
profile fetch that precedes verification succeeds, and the state is
untouched. -/
theorem no_mutation_before_signature_ok (env : Env) (st : RelayState)
    (headers : List (Str × Str)) (host path : Str) (req : InboxRequest) :
    ((∀ actor, env.getActor req.actor = Res.ok actor →
        validate_signature env actor (("post").data) path headers ≠ Outcome.ok ()) →
      (inboxPost env st headers host path req).2.1 = st ∧
      (inboxPost env st headers host path req).2.2 = [] ∧
      (inboxPost env st headers host path req).1 ≠ Outcome.ok ()) ∧
    (mapGet headers (("signature").data) = none →
      (inboxPost env st headers host path req).2.1 = st ∧
      (inboxPost env st headers host path req).2.2 = [] ∧
      ∀ actor, env.getActor req.actor = Res.ok actor →
        (inboxPost env st headers host path req).1 = Outcome.err Err.MissingSignature) := by
  constructor
  · intro hval
    cases hga : env.getActor req.actor with
    | error e =>
      rw [inboxPost_getActor_err env st headers host path req e hga]
      exact ⟨rfl, rfl, fun h => Outcome.noConfusion h⟩
    | ok actor =>
      cases hvs : validate_signature env actor (("post").data) path headers with
      | ok u =>
        cases u
        exact absurd hvs (hval actor hga)
      | err e =>
        rw [inboxPost_validate_err env st headers host path req actor e hga hvs]
        exact ⟨rfl, rfl, fun h => Outcome.noConfusion h⟩
      | panicked msg =>
        rw [inboxPost_validate_panicked env st headers host path req actor msg hga hvs]
        exact ⟨rfl, rfl, fun h => Outcome.noConfusion h⟩
  · intro hsig
    cases hga : env.getActor req.actor with
    | error e =>
      rw [inboxPost_getActor_err env st headers host path req e hga]
      refine ⟨rfl, rfl, fun actor ha => ?_⟩
      exact Res.noConfusion ha
    | ok actor0 =>
      rw [inboxPost_validate_err env st headers host path req actor0 Err.MissingSignature hga
        (validate_signature_missing env actor0 (("post").data) path headers hsig)]
      exact ⟨rfl, rfl, fun _ _ => rfl⟩

/-- The shared state with an empty registry and empty cache. -/
def c9St : RelayState where
  db := { inboxes := [] }
  objectCache := []

/-- Environment whose actor fetch succeeds with the witness actor;
crypto fields are those of the sound environment. -/
def c4Env : Env := { w2Env with getActor := fun _ => Res.ok w1Actor }

/-- An inbound Announce request body. -/
def c3Req : InboxRequest where
  ty := ("Announce").data
  actor := ("https://example.com/actor").data
  activity := Json.null

/-- C3 witness: a request with no headers at all is rejected with
MissingSignature and the state is untouched. -/
theorem no_mutation_before_signature_ok_witness :
    (inboxPost c4Env c9St [] (("relay.example").data) (("/inbox").data) c3Req).2.1 = c9St ∧
    (inboxPost c4Env c9St [] (("relay.example").data) (("/inbox").data) c3Req).2.2 = [] ∧
    (inboxPost c4Env c9St [] (("relay.example").data) (("/inbox").data) c3Req).1
      = Outcome.err Err.MissingSignature := by
  have h := (no_mutation_before_signature_ok c4Env c9St [] (("relay.example").data)
    (("/inbox").data) c3Req).2 (by decide)
  exact ⟨h.1, h.2.1, h.2.2 w1Actor rfl⟩

/-- C4: a correctly signed non-Follow request whose actor domain is not a
registered inbox is rejected with the 401 access-denied error, the state
unchanged and no handler dispatched; the same check accepts a Follow from
the same unregistered actor. -/
theorem non_follow_unregistered_rejected (env : Env) (st : RelayState)
    (headers : List (Str × Str)) (host path : Str) (req : InboxRequest)
    (actor : RActor) (aid dom : Str)
    (hga : env.getActor req.actor = Res.ok actor)
    (hvs : validate_signature env actor (("post").data) path headers = Outcome.ok ())
    (hid : actor.id = some aid)
    (hdom : host_from_uri env aid = Res.ok dom)
    (hreg : dbInbox env st.db dom = none)
    (hty : req.ty ≠ ("Follow").data) :
    inboxPost env st headers host path req
      = (Outcome.err (Err.StatusAndMessage 401 (("access denied").data)), st, []) ∧
    validate_request env actor (("Follow").data) st = Outcome.ok () := by
  have hvr : validate_request env actor req.ty st
      = Outcome.err (Err.StatusAndMessage 401 (("access denied").data)) := by
    simp only [validate_request, hid, hdom, hreg]
    rw [if_pos ⟨hty, rfl⟩]
  constructor
  · simp only [inboxPost, hga, hvs, hvr]
  · simp only [validate_request, hid, hdom]
    rw [if_neg (fun hcon => hcon.1 rfl)]

set_option maxRecDepth 4000 in
/-- C4 witness: the rejection theorem applied to a concretely signed
Announce from an unregistered domain. -/
theorem non_follow_unregistered_rejected_witness :
    inboxPost c4Env c9St
      (signedHeaders c4Env (("https://example.com/inbox").data) (("example.com").data)
        (some (("hello").data)))
      (("relay.example").data) (c4Env.uriPath (("https://example.com/inbox").data)) c3Req
      = (Outcome.err (Err.StatusAndMessage 401 (("access denied").data)), c9St, []) ∧
    validate_request c4Env w1Actor (("Follow").data) c9St = Outcome.ok () :=
  non_follow_unregistered_rejected c4Env c9St _ _ _ c3Req w1Actor
    (("https://example.com/actor").data) (("example.com").data)
    rfl (by decide) rfl (by decide) (by decide) (by decide)

/-- C5: Db::add_inbox_if_unknown keys the registry by host but tests
membership with the full inbox URL, so two inbox URLs sharing the host
example.com are both inserted and both calls return true: the pair of
results is (true, true), not the (true, false) the claim states.  This
evaluates the embedded function verbatim at that failing input. -/
theorem add_inbox_checks_wrong_key :
    add_inbox_if_unknown w2Env { inboxes := [] } (("https://example.com/inbox").data)
      = Res.ok (true,
        { inboxes := [(("example.com").data, ("https://example.com/inbox").data)] }) ∧
    add_inbox_if_unknown w2Env
      { inboxes := [(("example.com").data, ("https://example.com/inbox").data)] }
      (("https://example.com/inbox2").data)
      = Res.ok (true,
        { inboxes := [(("example.com").data, ("https://example.com/inbox").data),
                      (("example.com").data, ("https://example.com/inbox2").data)] }) := by
  refine ⟨by decide, by decide⟩

/-- C6: when the inner object id of an Announce or Create is already in
the dedup cache, handle_relay is a no-op: it returns Ok, issues no
outbound POST, and leaves registry and cache exactly as they were. -/
theorem duplicate_announce_noop (env : Env) (st : RelayState) (actor : RActor)
    (activity : Json) (host objectId aid cachedId : Str)
    (hobj : id_from_json activity = some objectId)
    (hparse : env.uriParses objectId = true)
    (hid : actor.id = some aid)
    (hcache : mapGet st.objectCache objectId = some cachedId) :
    handle_relay env st actor activity host = (Outcome.ok (), st, []) := by
  simp only [handle_relay, hobj, hparse, hid, hcache, if_true]

/-- An Announce activity body whose inner object is the bare note id. -/
def c6Activity : Json :=
  Json.jobj [((("object").data), Json.jstr (("https://example.com/notes/9").data))]

/-- State with one registered inbox and the note id already cached. -/
def c6St : RelayState where
  db := { inboxes := [(("b.example").data, ("https://b.example/inbox").data)] }
  objectCache :=
    [(("https://example.com/notes/9").data, ("https://relay.example/activities/old").data)]

/-- C6 witness: re-delivery of a cached Announce object id is a no-op on
a concrete state. -/
theorem duplicate_announce_noop_witness :
    handle_relay w2Env c6St w1Actor c6Activity (("relay.example").data)
      = (Outcome.ok (), c6St, []) :=
  duplicate_announce_noop w2Env c6St w1Actor c6Activity (("relay.example").data)
    (("https://example.com/notes/9").data) (("https://example.com/actor").data)
    (("https://relay.example/activities/old").data)
    (by decide) (by decide) (by decide) (by decide)

/-- The transport error a failing recipient produces. -/
def c7Err : Err :=
  Err.FailedRequest (("POST").data) 500 (("connection refused").data)
    (("https://b.example/inbox").data)

/-- Environment in which every outbound POST fails. -/
def c7Env : Env := { w2Env with postResult := fun _ => some c7Err }

/-- State with a single registered recipient inbox on another domain. -/
def c7St : RelayState where
  db := { inboxes := [(("b.example").data, ("https://b.example/inbox").data)] }
  objectCache := []

/-- C7 counterexample: a failing delivery to a recipient is not swallowed
by post_for_actor; the transport error is returned to the caller (and
from there to the inbox handler), refuting the claim that per-recipient
failures are swallowed rather than propagated. -/
theorem fanout_failure_propagated :
    post_for_actor c7Env c7St w1Actor (("https://example.com/notes/1").data)
      (("https://relay.example/activities/uuid-2").data)
      = (Res.error c7Err,
         { db := { inboxes := [(("b.example").data, ("https://b.example/inbox").data)] },
           objectCache := [(("https://example.com/notes/1").data,
             ("https://relay.example/activities/uuid-2").data)] },
         [(("https://b.example/inbox").data)]) := by
  decide

/-- C7 amended: one outbound POST is issued per recipient and the results
are combined as by try_join_all: the call returns Ok exactly when every
delivery succeeded, a failure is propagated to the caller rather than
swallowed, and the dedup cache is updated either way. -/
theorem fanout_ok_iff_all_ok (env : Env) (st : RelayState) (actor : RActor)
    (objectId cacheValue : Str) (inboxes : List Str)
    (h : inboxes_for_actor env st.db actor objectId = Res.ok inboxes) :
    (post_for_actor env st actor objectId cacheValue).2.2 = inboxes ∧
    (post_for_actor env st actor objectId cacheValue).2.1
      = { st with objectCache := mapInsert st.objectCache objectId cacheValue } ∧
    ((post_for_actor env st actor objectId cacheValue).1 = Res.ok ()
      ↔ ∀ i ∈ inboxes, env.postResult i = none) := by
  simp only [post_for_actor, h]
  exact ⟨trivial, trivial, tryJoinAll_ok_iff env inboxes⟩

/-- C7 amended witness: the characterisation applied at the concrete
failing-delivery environment. -/
theorem fanout_ok_iff_all_ok_witness :
    (post_for_actor c7Env c7St w1Actor (("https://example.com/notes/2").data)
      (("aid2").data)).2.2 = [(("https://b.example/inbox").data)] :=
  (fanout_ok_iff_all_ok c7Env c7St w1Actor (("https://example.com/notes/2").data)
    (("aid2").data) [(("https://b.example/inbox").data)] (by decide)).1

/-- A request header set whose Signature header lists the date header even
though the request carries no date header. -/
def c8Hdrs : List (Str × Str) :=
  [((("signature").data),
    (("keyId=\"k\",algorithm=\"rsa-sha256\",headers=\"date\",signature=\"AAAA\"").data))]

/-- C8: a header name listed in the signature but absent from the request
does not produce the generic invalid-signature error: the ok_or_else
closure aborts the handling task with a message naming the missing key,
contradicting the deliberate anti-oracle policy the code itself states. -/
theorem validate_panics_on_missing_listed_header :
    validate_signature w2Env w1Actor (("post").data) (("/inbox").data) c8Hdrs
      = Outcome.panicked (("missing key: date").data) := by
  decide

/-- An activity whose nested object is an object without a string id. -/
def c9Activity : Json := Json.jobj [((("object").data), Json.jobj [])]

/-- An Undo of an Announce whose nested object lacks an id. -/
def c9UndoActivity : Json :=
  Json.jobj [((("object").data),
    Json.jobj [((("type").data), Json.jstr (("Announce").data))])]

/-- C9: a malformed nested object (neither a string id nor an object with
a string id) does not yield a 400 response: id_from_json unwraps the
missing id and aborts the handling task, for the relay (Announce/Create),
forward (Delete/Update) and Undo(Announce) paths alike. -/
theorem malformed_object_panics :
    (handle_relay w2Env c9St w1Actor c9Activity (("relay.example").data)).1
      = Outcome.panicked (("id_from_json unwrapped a missing object id").data) ∧
    (handle_forward w2Env c9St w1Actor c9Activity).1
      = Outcome.panicked (("id_from_json unwrapped a missing object id").data) ∧
    (handle_undo w2Env c9St w1Actor c9UndoActivity).1
      = Outcome.panicked (("id_from_json unwrapped a missing object id").data) := by
  refine ⟨by decide, by decide, by decide⟩

/-- Environment in which no URI has a host, so recipient listing fails. -/
def c10Env : Env := { w2Env with uriHost := fun _ => none }

/-- C10 counterexample: a call to post_for_actor whose recipient listing
fails (the object id has no host) returns the error before anything else
happens: nothing is cached, refuting the claim that every call inserts
the mapping before returning. -/
theorem no_cache_on_listing_error :
    post_for_actor c10Env c7St w1Actor (("/relative/path").data) (("cache-val").data)
      = (Res.error (Err.InvalidUri (("/relative/path").data)), c7St, []) ∧
    mapGet c7St.objectCache (("/relative/path").data) = none := by
  refine ⟨by decide, by decide⟩

/-- C10 amended: every call to post_for_actor in which recipient listing
succeeds inserts object id to cache value into the dedup cache before
returning, with the registry untouched, regardless of how many deliveries
fail; a later delivery of the same object id therefore finds it cached. -/
theorem cache_updated_despite_failures (env : Env) (st : RelayState) (actor : RActor)
    (objectId cacheValue : Str)
    (h : ∃ inboxes, inboxes_for_actor env st.db actor objectId = Res.ok inboxes) :
    mapGet (post_for_actor env st actor objectId cacheValue).2.1.objectCache objectId
      = some cacheValue ∧
    (post_for_actor env st actor objectId cacheValue).2.1.db = st.db := by
  obtain ⟨inboxes, h⟩ := h
  simp only [post_for_actor, h]
  exact ⟨mapGet_append_single _ _ _, trivial⟩

/-- C10 amended witness: with every delivery failing, the object id is
still cached. -/
theorem cache_updated_despite_failures_witness :
    mapGet (post_for_actor c7Env c7St w1Actor (("https://example.com/notes/3").data)
      (("cached-3").data)).2.1.objectCache (("https://example.com/notes/3").data)
      = some (("cached-3").data) :=
  (cache_updated_despite_failures c7Env c7St w1Actor (("https://example.com/notes/3").data)
    (("cached-3").data) ⟨[(("https://b.example/inbox").data)], by decide⟩).1

end Actiserve
